import Mathlib

/-!
Verification of the device session manager in
`custom_components/localtuya/common.py` (class `TuyaDevice`, and the
module-level backoff constant).

The Python class is embedded shallowly:

* The mutable fields set in `TuyaDevice.__init__` become the fields of the
  Lean structure `TuyaDevice`.  The link handle (`self._interface`) and the
  in-flight task handle (`self._connect_task`) matter to the claims only
  through presence or absence, so both are modelled as `Option Unit`.
* The status dictionary is an association list `Snapshot`; `dictUpdate`
  embeds Python `dict.update` (overwrite existing keys in place, append
  new keys).
* Each method becomes a pure function from the state (plus the outcome of
  the environment interactions the method awaits) to the new state together
  with its observable outputs: the payloads passed to
  `async_dispatcher_send` (`Option Snapshot`, `none` being the Python
  `None` "unreachable" payload), and booleans recording which collaborator
  calls were made.
* The coroutine `_make_connection` has four await points.  Its run is
  summarised by a `ConnEvent` describing how the environment behaved:
  the connect call raised, the status fetch raised, the status fetch
  returned a value (`Option Snapshot`, `none` embedding Python `None`),
  or the task was cancelled while suspended in the backoff
  `asyncio.sleep`.  That sleep sits before the `try` block, so a
  `CancelledError` delivered there propagates out of the coroutine at
  once: no state written after the sleep is reached, in particular line
  177 (`self._connect_task = None`) is skipped.
* Event traces over the whole class are folded with `step`, which tags
  each step with whether it spawned a new connection attempt
  (`asyncio.ensure_future` in `connect`).
-/

/-- A status snapshot: mapping from datapoint id to reported value,
as an insertion-ordered association list (embedding a Python dict). -/
abbrev Snapshot := List (String × String)

/-- Dictionary lookup on a snapshot. -/
def lookupKV (m : Snapshot) (k : String) : Option String :=
  match m with
  | [] => none
  | (k1, v) :: rest => if k1 = k then some v else lookupKV rest k

/-- Python dict single-key write: overwrite an existing key in place,
otherwise append the new pair at the end. -/
def insertKV (m : Snapshot) (k : String) (v : String) : Snapshot :=
  match m with
  | [] => [(k, v)]
  | (k1, v1) :: rest =>
    if k1 = k then (k1, v) :: rest else (k1, v1) :: insertKV rest k v

/-- Python `m.update(u)`: fold every pair of `u` into `m`. -/
def dictUpdate (m : Snapshot) (u : Snapshot) : Snapshot :=
  u.foldl (fun acc kv => insertKV acc kv.1 kv.2) m

/-- Module constant `BACKOFF_TIME_UPPER_LIMIT = 300` (common.py line 35). -/
def BACKOFF_TIME_UPPER_LIMIT : Nat := 300

/-- The backoff computed at the top of `_make_connection` (lines 145-147):
`min(randrange(2 ** self._connection_attempts), BACKOFF_TIME_UPPER_LIMIT)`.
The pseudo-random draw `randrange(2 ** attempts)` is passed in as `r`;
callers supply the guarantee `r < 2 ^ attempts`. -/
def backoff (attempts : Nat) (r : Nat) : Nat :=
  min r BACKOFF_TIME_UPPER_LIMIT

/-- Mutable state of one `TuyaDevice` session (fields of `__init__`,
lines 105-118, plus the immutable `passive_device` configuration flag the
methods read from `self._config_entry`). -/
structure TuyaDevice where
  interface : Option Unit
  status : Snapshot
  dpsToRequest : List String
  isClosing : Bool
  connectTask : Option Unit
  connectionAttempts : Nat
  passiveDevice : Bool
deriving Repr, DecidableEq

namespace TuyaDevice

/-- Property `connected` (lines 120-123). -/
def connected (d : TuyaDevice) : Bool :=
  d.interface.isSome && d.connectTask.isNone

/-- Method `connect` (lines 125-142).  Returns the new state and whether a
new connection attempt was spawned (`asyncio.ensure_future` on line 133).
The guard on line 127 is
`not self._is_closing and self._connect_task is None and not self._interface`. -/
def connect (d : TuyaDevice) : TuyaDevice × Bool :=
  if !d.isClosing && d.connectTask.isNone && d.interface.isNone then
    ({ d with connectTask := some () }, true)
  else
    (d, false)

/-- How the environment behaved during one run of the coroutine
`_make_connection` (lines 144-177). -/
inductive ConnEvent where
  /-- The task was cancelled while suspended in `await asyncio.sleep`
  (line 150), which is before the `try` block: the `CancelledError`
  propagates and nothing after line 150 executes. -/
  | cancelledInSleep
  /-- `await pytuya.connect(...)` (line 154) raised. -/
  | openFail
  /-- `await self._interface.status()` (line 164) raised. -/
  | statusRaise
  /-- `await self._interface.status()` returned `st`
  (`none` embeds the Python value `None`). -/
  | fetched (st : Option Snapshot)
deriving Repr, DecidableEq

/-- State left by the `except Exception` block (lines 170-176): the
attempt counter is incremented, a partially opened interface is closed and
dropped, and a retry `connect` is scheduled with `call_soon`; afterwards
line 177 clears the task handle. -/
def failState (d : TuyaDevice) : TuyaDevice :=
  { d with connectionAttempts := d.connectionAttempts + 1,
           interface := none,
           connectTask := none }

/-- Coroutine `_make_connection` (lines 144-177), given the environment
outcome `c`.  Result: new state, list of dispatcher payloads sent, and
whether a retry `connect` was scheduled via `self._hass.loop.call_soon`
(line 176).  On `cancelledInSleep` the coroutine exits at line 150, so the
state is untouched: in particular `self._connect_task = None` (line 177)
does not run. -/
def makeConnection (d : TuyaDevice) (c : ConnEvent) :
    TuyaDevice × List (Option Snapshot) × Bool :=
  match c with
  | .cancelledInSleep => (d, [], false)
  | .openFail => (failState d, [], true)
  | .statusRaise => (failState d, [], true)
  | .fetched none =>
      -- `if status is None: raise Exception(...)` (lines 165-166)
      (failState d, [], true)
  | .fetched (some st) =>
      -- success path: `self.status_updated(status)` then
      -- `self._connection_attempts = 0`, then line 177 clears the task
      let newStatus := dictUpdate d.status st
      ({ d with interface := some (),
                status := newStatus,
                connectionAttempts := 0,
                connectTask := none },
       [some newStatus], false)

/-- Method `close` (lines 179-185).  Returns the new state, whether
`cancel()` was requested on the in-flight task, and whether the link was
told to shut down.  Note `close` only sets the flag and issues those two
calls; it does not itself clear `_connect_task` or `_interface`. -/
def close (d : TuyaDevice) : TuyaDevice × Bool × Bool :=
  ({ d with isClosing := true }, d.connectTask.isSome, d.interface.isSome)

/-- Result reported by `set_dp` (lines 187-197): the write was forwarded
and succeeded, the link raised (logged, swallowed, not retried), or there
was no link (error logged, nothing queued). -/
inductive SetDpResult where
  | success
  | writeFailed
  | notConnected
deriving Repr, DecidableEq

/-- Method `set_dp` (lines 187-197).  `linkWriteOk` is whether the link
call `self._interface.set_dp(...)` succeeds when attempted. -/
def set_dp (d : TuyaDevice) (linkWriteOk : Bool) : TuyaDevice × SetDpResult :=
  match d.interface with
  | some _ => (d, if linkWriteOk then .success else .writeFailed)
  | none => (d, .notConnected)

/-- Callback `status_updated` (lines 199-205): merge into the cache, then
send the whole merged cache on the dispatcher. -/
def status_updated (d : TuyaDevice) (st : Snapshot) :
    TuyaDevice × List (Option Snapshot) :=
  let newStatus := dictUpdate d.status st
  ({ d with status := newStatus }, [some newStatus])

/-- Callback `disconnected` (lines 207-221): send `None` on the
dispatcher, drop the link handle, and call `connect()` unless the device
is passive.  The boolean is whether a new attempt was spawned by that
`connect()` call. -/
def disconnected (d : TuyaDevice) :
    TuyaDevice × List (Option Snapshot) × Bool :=
  let d1 := { d with interface := none }
  if d.passiveDevice then
    (d1, [none], false)
  else
    let r := connect d1
    (r.1, [none], r.2)

/-- An externally visible event delivered to the session. -/
inductive Event where
  | connectEv
  | closeEv
  | disconnectedEv
  | statusEv (st : Snapshot)
  | connFinish (c : ConnEvent)
  | setDpEv (ok : Bool)
deriving Repr, DecidableEq

/-- One step of the session: the new state and whether this step spawned a
new connection attempt. -/
def step (d : TuyaDevice) (e : Event) : TuyaDevice × Bool :=
  match e with
  | .connectEv => connect d
  | .closeEv => ((close d).1, false)
  | .disconnectedEv =>
      let r := disconnected d
      (r.1, r.2.2)
  | .statusEv st => ((status_updated d st).1, false)
  | .connFinish c => ((makeConnection d c).1, false)
  | .setDpEv ok => ((set_dp d ok).1, false)

/-- Fold a trace of events. -/
def run (d : TuyaDevice) (es : List Event) : TuyaDevice :=
  es.foldl (fun s e => (step s e).1) d

/-- Whether any step of the trace spawned a new connection attempt. -/
def anyStarted (d : TuyaDevice) (es : List Event) : Bool :=
  match es with
  | [] => false
  | e :: rest => (step d e).2 || anyStarted (step d e).1 rest

/-- Iterate `k` failed connection cycles: each cycle is the retry
`connect()` scheduled by the previous failure followed by an attempt that
fails at the link-open step. -/
def failIter (d : TuyaDevice) : Nat → TuyaDevice
  | 0 => d
  | k + 1 => (makeConnection (connect (failIter d k)).1 .openFail).1

end TuyaDevice

open TuyaDevice

/-! ## Helper lemmas -/

theorem connect_fst_status (d : TuyaDevice) : (connect d).1.status = d.status := by
  unfold connect; split <;> rfl

theorem connect_fst_interface (d : TuyaDevice) :
    (connect d).1.interface = d.interface := by
  unfold connect; split <;> rfl

theorem connect_fst_isClosing (d : TuyaDevice) :
    (connect d).1.isClosing = d.isClosing := by
  unfold connect; split <;> rfl

theorem connect_fst_attempts (d : TuyaDevice) :
    (connect d).1.connectionAttempts = d.connectionAttempts := by
  unfold connect; split <;> rfl

theorem lookupKV_insertKV_mono (k k1 v1 : String) :
    ∀ m : Snapshot, (lookupKV m k).isSome = true →
      (lookupKV (insertKV m k1 v1) k).isSome = true := by
  intro m
  induction m with
  | nil => intro h; simp [lookupKV] at h
  | cons p rest ih =>
      obtain ⟨k2, v2⟩ := p
      intro h
      simp only [insertKV]
      by_cases h1 : k2 = k1
      · rw [if_pos h1]
        simp only [lookupKV] at h ⊢
        by_cases h2 : k2 = k
        · rw [if_pos h2]; simp
        · rw [if_neg h2] at h ⊢; exact h
      · rw [if_neg h1]
        simp only [lookupKV] at h ⊢
        by_cases h2 : k2 = k
        · rw [if_pos h2]; simp
        · rw [if_neg h2] at h ⊢; exact ih h

theorem lookupKV_dictUpdate_mono (k : String) :
    ∀ (u m : Snapshot), (lookupKV m k).isSome = true →
      (lookupKV (dictUpdate m u) k).isSome = true := by
  intro u
  induction u with
  | nil => intro m h; exact h
  | cons p rest ih =>
      intro m h
      have hstep : dictUpdate m (p :: rest) = dictUpdate (insertKV m p.1 p.2) rest := rfl
      rw [hstep]
      exact ih _ (lookupKV_insertKV_mono k p.1 p.2 m h)

theorem step_of_closing (d : TuyaDevice) (e : Event) (h : d.isClosing = true) :
    (step d e).1.isClosing = true ∧ (step d e).2 = false := by
  cases e with
  | connectEv => simp [step, connect, h]
  | closeEv => simp [step, close]
  | disconnectedEv =>
      cases hp : d.passiveDevice <;> simp [step, disconnected, connect, hp, h]
  | statusEv st => simp [step, status_updated, h]
  | connFinish c =>
      cases c with
      | cancelledInSleep => simp [step, makeConnection, h]
      | openFail => simp [step, makeConnection, failState, h]
      | statusRaise => simp [step, makeConnection, failState, h]
      | fetched st => cases st <;> simp [step, makeConnection, failState, h]
  | setDpEv ok => cases hi : d.interface <;> simp [step, set_dp, hi, h]

/-! ## Claim theorems -/

/-- Claim C1: `connect()` is a no-op (state unchanged, no attempt spawned)
while the session is closing, while an attempt is in flight, or while a
link is held; a second `connect()` issued immediately after any `connect()`
never spawns another attempt; and from an eligible idle state `connect()`
installs exactly one in-flight handle. -/
theorem C1_connect_reentrant_safe (d : TuyaDevice) :
    (d.isClosing = true ∨ d.connectTask.isSome ∨ d.interface.isSome →
      connect d = (d, false))
    ∧ connect (connect d).1 = ((connect d).1, false)
    ∧ (d.isClosing = false ∧ d.connectTask = none ∧ d.interface = none →
      (connect d).1.connectTask = some () ∧ (connect d).2 = true) := by
  rcases d with ⟨intf, st, dps, cl, task, att, pas⟩
  cases intf <;> cases cl <;> cases task <;> simp [connect]

/-- Witness for C1 at two concrete sessions: one holding a link
(`connect` is a no-op) and one idle (`connect` spawns the single
attempt). -/
theorem C1_connect_reentrant_safe_witness :
    connect ⟨some (), [], [], false, none, 0, false⟩
      = (⟨some (), [], [], false, none, 0, false⟩, false)
    ∧ (connect ⟨none, [], [], false, none, 0, false⟩).1.connectTask
      = some () := by
  constructor
  · exact (C1_connect_reentrant_safe _).1 (Or.inr (Or.inr rfl))
  · exact ((C1_connect_reentrant_safe _).2.2 ⟨rfl, rfl, rfl⟩).1

/-- Counterexample to claim C2 as stated: a session with an attempt in
flight is closed (`close` requests cancellation of the task), and the
cancellation is delivered while the attempt is suspended in its backoff
sleep; the in-flight handle is NOT cleared, because the sleep sits before
the `try` block and the clearing statement on line 177 is never reached. -/
theorem C2_cancelled_handle_not_cleared_cex :
    (makeConnection
        (close ⟨none, [], [], false, some (), 0, false⟩).1
        ConnEvent.cancelledInSleep).1.connectTask ≠ none := by
  decide

/-- Claim C2 (amended): the in-flight handle is cleared on every success
or failure termination of `_make_connection`; a cancellation delivered
during the backoff sleep exits the coroutine before the clearing
statement, leaving the state (the handle included) entirely unchanged. -/
theorem C2_handle_cleared_unless_cancelled (d : TuyaDevice) (c : ConnEvent)
    (h : c ≠ ConnEvent.cancelledInSleep) :
    (makeConnection d c).1.connectTask = none
    ∧ makeConnection d ConnEvent.cancelledInSleep = (d, [], false) := by
  refine ⟨?_, rfl⟩
  cases c with
  | cancelledInSleep => exact absurd rfl h
  | openFail => rfl
  | statusRaise => rfl
  | fetched st => cases st <;> rfl

/-- Witness for amended C2 at a concrete failing attempt. -/
theorem C2_handle_cleared_unless_cancelled_witness :
    (makeConnection ⟨none, [], [], false, some (), 2, false⟩
        ConnEvent.openFail).1.connectTask = none :=
  (C2_handle_cleared_unless_cancelled _ _ (by decide)).1

/-- Counterexample to claim C3 as stated: a non-passive session whose
cache holds a pair for key "2" disconnects and then reconnects with an
initial fetch of a snapshot holding only key "1"; the payload published to
subscribers is not that snapshot alone — the pre-disconnect pair for key
"2" is still in it, because `disconnected` never clears the session-level
cache and `status_updated` merges. -/
theorem C3_cache_cleared_on_disconnect_cex :
    (makeConnection
          (disconnected ⟨some (), [("2", "off")], [], false, none, 0, false⟩).1
          (ConnEvent.fetched (some [("1", "on")]))).2.1
        ≠ [some [("1", "on")]]
    ∧ lookupKV
        (dictUpdate [("2", "off")] [("1", "on")]) ("2") = some ("off") := by
  constructor
  · decide
  · decide

/-- Claim C3 (amended): entering the disconnected state does NOT clear the
session-level status cache; after a subsequent successful reconnect whose
initial fetch returns `st`, subscribers receive the pre-disconnect cache
merged with `st` (pairs from before the disconnect are retained), not `st`
alone. -/
theorem C3_reconnect_publishes_merged_cache (d : TuyaDevice) (st : Snapshot)
    (h : d.passiveDevice = false) :
    (disconnected d).1.status = d.status
    ∧ (makeConnection (disconnected d).1 (ConnEvent.fetched (some st))).2.1
        = [some (dictUpdate d.status st)] := by
  have hstat : (disconnected d).1.status = d.status := by
    simp only [disconnected, h]
    simp [connect_fst_status]
  refine ⟨hstat, ?_⟩
  simp [makeConnection, hstat]

/-- Witness for amended C3 at the concrete run of the counterexample. -/
theorem C3_reconnect_publishes_merged_cache_witness :
    (disconnected ⟨some (), [("2", "off")], [], false, none, 0, false⟩).1.status
      = [("2", "off")]
    ∧ (makeConnection
          (disconnected ⟨some (), [("2", "off")], [], false, none, 0, false⟩).1
          (ConnEvent.fetched (some [("1", "on")]))).2.1
        = [some (dictUpdate [("2", "off")] [("1", "on")])] :=
  C3_reconnect_publishes_merged_cache _ _ rfl

/-- Counterexample to claim C4 as stated: an initial status fetch that
returns an empty-but-present snapshot is NOT treated as a failure — the
attempt counter (here 5) is reset to 0 instead of being incremented to 6,
and no retry is scheduled — because line 165 tests `status is None`, which
an empty dict passes. -/
theorem C4_empty_snapshot_not_failure_cex :
    (makeConnection ⟨none, [], [], false, some (), 5, false⟩
        (ConnEvent.fetched (some []))).1.connectionAttempts ≠ 5 + 1
    ∧ (makeConnection ⟨none, [], [], false, some (), 5, false⟩
        (ConnEvent.fetched (some []))).2.2 = false := by
  constructor
  · decide
  · decide

/-- Claim C4 (amended): only an absent initial snapshot (the Python value
`None`) is treated as failure — attempt counter incremented, link
released, handle cleared, retry scheduled; an empty-but-present snapshot
is treated as success (counter reset to 0, no retry scheduled). -/
theorem C4_absent_snapshot_is_failure (d : TuyaDevice) :
    makeConnection d (ConnEvent.fetched none) = (failState d, [], true)
    ∧ (makeConnection d
        (ConnEvent.fetched (some []))).1.connectionAttempts = 0
    ∧ (makeConnection d (ConnEvent.fetched (some []))).2.2 = false :=
  ⟨rfl, rfl, rfl⟩

/-- Claim C5: `set_dp` never changes the session state (link handle,
in-flight handle, closing flag, attempt counter all included, since the
whole state is returned unchanged); with no link it reports notConnected
without queueing anything; with a link whose write fails it reports the
failure once (a single result, no retry). -/
theorem C5_set_dp_reports_and_preserves (d : TuyaDevice) (ok : Bool) :
    (set_dp d ok).1 = d
    ∧ (d.interface = none → (set_dp d ok).2 = SetDpResult.notConnected)
    ∧ (∀ u, d.interface = some u → ok = false →
        (set_dp d ok).2 = SetDpResult.writeFailed) := by
  rcases d with ⟨intf, st, dps, cl, task, att, pas⟩
  cases intf <;> cases ok <;> simp [set_dp]

/-- Witness for C5: a disconnected session reports notConnected, a
connected session with a failing link write reports writeFailed. -/
theorem C5_set_dp_reports_and_preserves_witness :
    (set_dp ⟨none, [], [], false, none, 0, false⟩ true).2
      = SetDpResult.notConnected
    ∧ (set_dp ⟨some (), [], [], false, none, 0, false⟩ false).2
      = SetDpResult.writeFailed :=
  ⟨(C5_set_dp_reports_and_preserves _ _).2.1 rfl,
   (C5_set_dp_reports_and_preserves _ _).2.2 () rfl rfl⟩

/-- Claim C6: for every attempt count `n` and every pseudo-random draw
`r < 2 ^ n`, the computed backoff is at most the 300-unit cap (and is a
natural number, hence non-negative), and attempt count 0 forces a zero
wait. -/
theorem C6_backoff_bounded (n r : Nat) (h : r < 2 ^ n) :
    backoff n r ≤ BACKOFF_TIME_UPPER_LIMIT
    ∧ BACKOFF_TIME_UPPER_LIMIT = 300
    ∧ (n = 0 → backoff n r = 0) := by
  refine ⟨min_le_right _ _, rfl, ?_⟩
  rintro rfl
  have hr : r = 0 := Nat.lt_one_iff.mp (by simpa using h)
  subst hr
  rfl

/-- Witness for C6 at attempt count 3 and draw 5. -/
theorem C6_backoff_bounded_witness :
    backoff 3 5 ≤ BACKOFF_TIME_UPPER_LIMIT ∧ backoff 0 0 = 0 :=
  ⟨(C6_backoff_bounded 3 5 (by decide)).1,
   (C6_backoff_bounded 0 0 (by decide)).2.2 rfl⟩

/-- Claim C7: every disconnection callback publishes exactly the
unreachable payload (`none`, which is distinct from an empty snapshot) and
drops the link handle; it invokes `connect()` exactly when the device is
not passive (the resulting state is literally `connect` applied to the
link-dropped state, spawning an attempt whenever the session is eligible);
for a passive device the state shows no `connect` effect — in particular
no attempt is spawned and the in-flight handle is untouched. -/
theorem C7_disconnected_publishes_and_reconnects (d : TuyaDevice) :
    (disconnected d).2.1 = [none]
    ∧ (none : Option Snapshot) ≠ some []
    ∧ (disconnected d).1.interface = none
    ∧ (d.passiveDevice = true →
        disconnected d = ({ d with interface := none }, [none], false))
    ∧ (d.passiveDevice = false →
        (disconnected d).1 = (connect { d with interface := none }).1
        ∧ (disconnected d).2.2 = (connect { d with interface := none }).2) := by
  refine ⟨?_, by simp, ?_, ?_, ?_⟩
  · cases hp : d.passiveDevice <;> simp [disconnected, hp]
  · cases hp : d.passiveDevice <;>
      simp [disconnected, hp, connect_fst_interface]
  · intro hp; simp [disconnected, hp]
  · intro hp; simp [disconnected, hp]

/-- Witness for C7 at a passive and a non-passive concrete session. -/
theorem C7_disconnected_publishes_and_reconnects_witness :
    disconnected ⟨some (), [], [], false, none, 0, true⟩
      = (⟨none, [], [], false, none, 0, true⟩, [none], false)
    ∧ (disconnected ⟨some (), [], [], false, none, 0, false⟩).1
      = (connect ⟨none, [], [], false, none, 0, false⟩).1 :=
  ⟨(C7_disconnected_publishes_and_reconnects _).2.2.2.1 rfl,
   ((C7_disconnected_publishes_and_reconnects _).2.2.2.2 rfl).1⟩

/-- Claim C8: closed is terminal.  After `close()` has run, no subsequent
event trace — direct `connect` calls, retry `connect`s scheduled by failed
attempts, disconnection callbacks (which call `connect` internally),
attempt terminations, status updates, or writes — ever spawns a new
connection attempt, and the closing flag never resets. -/
theorem C8_closed_is_terminal (d : TuyaDevice) (es : List Event) :
    anyStarted (close d).1 es = false
    ∧ (run (close d).1 es).isClosing = true := by
  have key : ∀ es : List Event, ∀ s : TuyaDevice, s.isClosing = true →
      anyStarted s es = false ∧ (run s es).isClosing = true := by
    intro es
    induction es with
    | nil => intro s hs; exact ⟨rfl, hs⟩
    | cons e rest ih =>
        intro s hs
        have h1 := step_of_closing s e hs
        have h2 := ih (step s e).1 h1.1
        refine ⟨?_, ?_⟩
        · simp [anyStarted, h1.2, h2.1]
        · simpa [run] using h2.2
  exact key es (close d).1 rfl

/-- Claim C9: every successful attempt resets the counter to 0; every
failed attempt (open failure, status-fetch failure, absent snapshot)
increments it by one; a cancelled attempt leaves it alone; hence `k`
consecutive failed connect-attempt cycles following a successful attempt
leave the counter at exactly `k`. -/
theorem C9_attempt_counter (d : TuyaDevice) (st : Snapshot) (k : Nat) :
    (makeConnection d
        (ConnEvent.fetched (some st))).1.connectionAttempts = 0
    ∧ (makeConnection d ConnEvent.openFail).1.connectionAttempts
        = d.connectionAttempts + 1
    ∧ (makeConnection d ConnEvent.statusRaise).1.connectionAttempts
        = d.connectionAttempts + 1
    ∧ (makeConnection d (ConnEvent.fetched none)).1.connectionAttempts
        = d.connectionAttempts + 1
    ∧ (makeConnection d
        ConnEvent.cancelledInSleep).1.connectionAttempts
        = d.connectionAttempts
    ∧ (failIter d k).connectionAttempts = d.connectionAttempts + k
    ∧ (failIter (makeConnection d
          (ConnEvent.fetched (some st))).1 k).connectionAttempts = k := by
  have hiter : ∀ s : TuyaDevice, ∀ j : Nat,
      (failIter s j).connectionAttempts = s.connectionAttempts + j := by
    intro s j
    induction j with
    | zero => rfl
    | succ n ih =>
        show (makeConnection (connect (failIter s n)).1
            ConnEvent.openFail).1.connectionAttempts
          = s.connectionAttempts + (n + 1)
        simp [makeConnection, failState, connect_fst_attempts, ih]
        omega
  refine ⟨rfl, rfl, rfl, rfl, rfl, hiter d k, ?_⟩
  rw [hiter]
  simp [makeConnection]

/-- Claim C10: no session operation ever removes a key from the
session-level status cache — every step of the state machine preserves
presence of every key — and `status_updated` both stores and publishes the
entire accumulated merged cache, not merely the triggering update. -/
theorem C10_cache_never_shrinks (d : TuyaDevice) (e : Event) (k : String)
    (h : (lookupKV d.status k).isSome = true) :
    (lookupKV (step d e).1.status k).isSome = true
    ∧ ∀ st : Snapshot,
        (status_updated d st).2 = [some (dictUpdate d.status st)]
        ∧ (status_updated d st).1.status = dictUpdate d.status st := by
  refine ⟨?_, fun st => ⟨rfl, rfl⟩⟩
  cases e with
  | connectEv => simpa [step, connect_fst_status] using h
  | closeEv => simpa [step, close] using h
  | disconnectedEv =>
      cases hp : d.passiveDevice <;>
        simpa [step, disconnected, hp, connect_fst_status] using h
  | statusEv st =>
      simpa [step, status_updated] using
        lookupKV_dictUpdate_mono k st d.status h
  | connFinish c =>
      cases c with
      | cancelledInSleep => simpa [step, makeConnection] using h
      | openFail => simpa [step, makeConnection, failState] using h
      | statusRaise => simpa [step, makeConnection, failState] using h
      | fetched st =>
          cases st with
          | none => simpa [step, makeConnection, failState] using h
          | some s =>
              simpa [step, makeConnection] using
                lookupKV_dictUpdate_mono k s d.status h
  | setDpEv ok =>
      cases hi : d.interface <;> simpa [step, set_dp, hi] using h

/-- Witness for C10: a cache holding key "1" still holds it after a
status update for key "2" arrives. -/
theorem C10_cache_never_shrinks_witness :
    (lookupKV
        (step ⟨none, [("1", "on")], [], false, none, 0, false⟩
          (Event.statusEv [("2", "5")])).1.status ("1")).isSome = true :=
  (C10_cache_never_shrinks _ _ ("1") (by decide)).1
